import Mathlib

/-!
# Verification of the canvas drawing app (`src/script.js`)

A shallow embedding of the application's state and event handlers.

Modelling conventions:
* The visible raster is a function from normalized logical coordinates
  (the unit square `[0,1) × [0,1)` of the canvas's logical CSS-pixel area)
  to pixel colors.  A pixel is either transparent (`none`) or an opaque CSS
  color string (`some c`).  This idealizes resampling away: redrawing a
  snapshot stretched over the full logical area is exact, which is the
  "ignoring negligible resampling" reading the spec itself uses.
* `canvas.toDataURL()` is modelled as returning the raster itself (PNG
  encoding is lossless); decoding via `new Image()` is its inverse.  The
  asynchronous `img.onload` callbacks are modelled as completing before the
  next event (single-threaded, in-order completion).
* `localStorage` is a map from string keys to stored images.
* `alert` and the anchor-click download are recorded in effect logs.
-/

/-- A pixel color: `none` is transparent, `some c` is the opaque CSS color
string `c` (all colors produced by this app — color-picker values and
canvas background fills — are opaque). -/
abbrev Color := Option String

/-- An image / the visible raster: pixel color at each normalized logical
coordinate.  Coordinates inside `[0,1) × [0,1)` are the canvas area. -/
abbrev Image := ℚ × ℚ → Color

/-- Whether a normalized point lies inside the canvas's logical bounds.
Every `clearRect` / `fillRect` / `drawImage` call in `script.js` targets the
rectangle `(0, 0, clientWidth, clientHeight)`, i.e. the full logical area,
which is the unit square in normalized coordinates. -/
def inCanvas (p : ℚ × ℚ) : Bool :=
  decide (0 ≤ p.1 ∧ p.1 < 1 ∧ 0 ≤ p.2 ∧ p.2 < 1)

/-- `ctx.clearRect(0, 0, displayW, displayH)`: pixels of the full logical
area become transparent. -/
def clearRectFull (img : Image) : Image :=
  fun p => if inCanvas p then none else img p

/-- `ctx.fillRect(0, 0, displayW, displayH)` with fill color `c`: pixels of
the full logical area become the opaque color `c`. -/
def fillRectFull (c : String) (img : Image) : Image :=
  fun p => if inCanvas p then some c else img p

/-- `ctx.drawImage(img, 0, 0, displayW, displayH)`: the source image is
drawn stretched over the full logical area with source-over compositing —
opaque source pixels replace the destination, transparent source pixels
leave the destination visible. -/
def drawImageFull (src : Image) (dst : Image) : Image :=
  fun p =>
    if inCanvas p then
      match src p with
      | some c => some c
      | none => dst p
    else dst p

/-- Squared distance from point `(qx, qy)` to the segment from `(ax, ay)`
to `(bx, by_)`, clamping the projection parameter to `[0, 1]`. -/
def segDistSq (ax ay bx by_ qx qy : ℚ) : ℚ :=
  let dx := bx - ax
  let dy := by_ - ay
  let len2 := dx * dx + dy * dy
  if len2 = 0 then (qx - ax) ^ 2 + (qy - ay) ^ 2
  else
    let t := max 0 (min 1 (((qx - ax) * dx + (qy - ay) * dy) / len2))
    (qx - (ax + t * dx)) ^ 2 + (qy - (ay + t * dy)) ^ 2

/-- The footprint of `ctx.moveTo(ax,ay); ctx.lineTo(bx,by_); ctx.stroke()`
with round caps and line width `lw`, on a canvas of logical size `w × h`:
the normalized point `p` is painted iff its logical position is within
`lw / 2` of the segment. -/
def inStroke (ax ay bx by_ lw w h : ℚ) (p : ℚ × ℚ) : Bool :=
  decide (segDistSq ax ay bx by_ (p.1 * w) (p.2 * h) ≤ (lw / 2) ^ 2)

/-- The whole application state: canvas raster and geometry, the 2D
context's style registers, the module-level mutable variables of
`script.js`, the stroke session, `localStorage`, and effect logs. -/
structure AppState where
  /-- visible raster content -/
  raster : Image
  /-- logical (CSS) width, `canvas.style.width` / `canvas.clientWidth` -/
  logicalW : ℚ
  /-- logical (CSS) height -/
  logicalH : ℚ
  /-- physical backing-store width, `canvas.width` -/
  backingW : ℤ
  /-- physical backing-store height, `canvas.height` -/
  backingH : ℤ
  /-- context transform scale factors; the source only ever sets
  `setTransform(1,0,0,1,0,0)` followed by `scale(dpr, dpr)` -/
  transform : ℚ × ℚ
  /-- `ctx.strokeStyle` -/
  ctxStroke : String
  /-- `ctx.fillStyle` -/
  ctxFill : String
  /-- `ctx.lineWidth` -/
  ctxLineWidth : ℚ
  /-- `ctx.lineJoin` -/
  ctxLineJoin : String
  /-- `ctx.lineCap` -/
  ctxLineCap : String
  /-- module variable `currentStroke` -/
  currentStroke : String
  /-- module variable `currentBg` -/
  currentBg : String
  /-- module variable `currentLineWidth` -/
  currentLineWidth : ℚ
  /-- module variable `isDrawing` -/
  isDrawing : Bool
  /-- module variable `lastX` -/
  lastX : ℚ
  /-- module variable `lastY` -/
  lastY : ℚ
  /-- `localStorage` contents -/
  store : String → Option Image
  /-- messages shown via `alert`, oldest first -/
  alerts : List String
  /-- triggered downloads: (file name, image data), oldest first -/
  downloads : List (String × Image)

attribute [ext] AppState

/-- `canvas.toDataURL()`: the raster serialized losslessly. -/
def toDataURL (s : AppState) : Image := s.raster

/-- Truthiness of the string `canvas.toDataURL()` returns.  In JavaScript
`toDataURL` always yields a non-empty data-URL string (for a blank canvas
it is the encoding of an all-transparent image, for a zero-sized canvas it
is the string made of the scheme `data:` and a comma), and a non-empty
string is truthy; so this is constantly `true`. -/
def dataURLTruthy (_ : Image) : Bool := true

/-- `Math.round(x)` for finite non-NaN `x`: the integer nearest to `x`,
rounding halves toward positive infinity. -/
def jsRound (q : ℚ) : ℤ := ⌊q + 1 / 2⌋

/-- The environment read by `resizeCanvasAndRestore`: the container's
`clientWidth`, its computed horizontal padding
(`paddingLeft + paddingRight`), and `window.devicePixelRatio`. -/
structure ResizeEnv where
  containerClientWidth : ℚ
  paddingX : ℚ
  devicePixelRatio : ℚ

/-- `resizeCanvasAndRestore()` (`script.js` lines 39–88): snapshot the
raster, compute the clamped display size and the device-pixel backing
size, reset the transform to `scale(dpr, dpr)`, reapply the style state,
then (in `img.onload`) clear and draw the snapshot stretched to the new
logical size.  Assigning `canvas.width` / `canvas.height` wipes the
backing store, so the raster passed to the final draw is blank.  The
`else` branch (fill with the background color) is guarded by the
truthiness of the data-URL string. -/
def resizeCanvasAndRestore (env : ResizeEnv) (s : AppState) : AppState :=
  let snapshot := toDataURL s
  let availableWidth := max 240 (env.containerClientWidth - env.paddingX)
  let displayWidth := min 800 availableWidth
  let displayHeight : ℚ := (jsRound (displayWidth * 350 / 800) : ℚ)
  let dpr := if env.devicePixelRatio = 0 then 1 else env.devicePixelRatio
  let wiped : Image := fun _ => none
  { s with
    logicalW := displayWidth
    logicalH := displayHeight
    backingW := jsRound (displayWidth * dpr)
    backingH := jsRound (displayHeight * dpr)
    transform := (dpr, dpr)
    ctxLineJoin := "round"
    ctxLineCap := "round"
    ctxStroke := s.currentStroke
    ctxFill := s.currentBg
    ctxLineWidth := s.currentLineWidth
    raster :=
      if dataURLTruthy snapshot then
        drawImageFull snapshot (clearRectFull wiped)
      else
        fillRectFull s.currentBg (clearRectFull wiped) }

/-- `pointerdown` handler (lines 97–103): start a stroke session and
record the down position.  `setPointerCapture` has no raster effect. -/
def pointerdown (s : AppState) (x y : ℚ) : AppState :=
  { s with isDrawing := true, lastX := x, lastY := y }

/-- `pointermove` handler (lines 105–114): if not drawing, return without
any effect; otherwise stroke a segment from the last point to the event
position with the context's stroke style and width, and update the last
point.  Event offsets are logical coordinates, normalized here by the
logical size. -/
def pointermove (s : AppState) (x y : ℚ) : AppState :=
  if s.isDrawing then
    { s with
      raster := fun p =>
        if inStroke s.lastX s.lastY x y s.ctxLineWidth s.logicalW s.logicalH p then
          some s.ctxStroke
        else s.raster p
      lastX := x
      lastY := y }
  else s

/-- `stopDrawing` (lines 116–121), used for `pointerup`, `pointercancel`
and `pointerout`: end the stroke session.  `releasePointerCapture` has no
raster effect. -/
def stopDrawing (s : AppState) : AppState :=
  { s with isDrawing := false }

/-- `colorPicker` change handler (lines 129–133): set the stroke color,
and also the context's fill style, to the picked value. -/
def colorPickerChange (s : AppState) (value : String) : AppState :=
  { s with currentStroke := value, ctxStroke := value, ctxFill := value }

/-- `canvasColor` change handler (lines 136–155): record the new
background, snapshot the raster, then (in `img.onload`, inside
`ctx.save()` / `ctx.restore()` so the fill-style change does not persist)
clear, fill the full logical area with the new background, and draw the
snapshot back on top. -/
def canvasColorChange (s : AppState) (value : String) : AppState :=
  let data := toDataURL s
  { s with
    currentBg := value
    raster := drawImageFull data (fillRectFull value (clearRectFull s.raster)) }

/-- JavaScript `Number(string)` restricted to decimal string inputs, which
is what the line-width control produces: `none` is NaN.  Whitespace is
trimmed; the empty string converts to `0`; otherwise an optional sign
followed by a decimal literal with optional fraction and exponent.
(Hexadecimal / octal / binary literals and `Infinity` are omitted from the
model; they are not representable in `ℚ` and not produced by the UI.) -/
def isDigit (c : Char) : Bool := decide ('0' ≤ c ∧ c ≤ '9')

/-- Longest digit prefix of a character list, and the rest. -/
def takeDigits : List Char → List Char × List Char
  | [] => ([], [])
  | c :: rest =>
    if isDigit c then
      let (d, r) := takeDigits rest
      (c :: d, r)
    else ([], c :: rest)

/-- Numeric value of a digit list read in base 10. -/
def digitsToNat (l : List Char) : ℕ :=
  l.foldl (fun a c => 10 * a + (c.toNat - 48)) 0

/-- Parse the optional exponent part of a decimal literal (everything
after the mantissa); `some e` is the exponent, `none` means the remaining
characters do not form a valid exponent (so the whole literal is NaN). -/
def parseExpPart : List Char → Option ℤ
  | [] => some 0
  | c :: rest =>
    if c = 'e' ∨ c = 'E' then
      match rest with
      | '+' :: ds =>
        if ds ≠ [] ∧ ds.all isDigit then some (digitsToNat ds) else none
      | '-' :: ds =>
        if ds ≠ [] ∧ ds.all isDigit then some (-(digitsToNat ds : ℤ)) else none
      | ds =>
        if ds ≠ [] ∧ ds.all isDigit then some (digitsToNat ds) else none
    else none

/-- Parse an unsigned decimal literal (digits, optional fraction, optional
exponent). -/
def parseUnsigned (cs : List Char) : Option ℚ :=
  let (ip, r1) := takeDigits cs
  match r1 with
  | '.' :: r2 =>
    let (fp, r3) := takeDigits r2
    if ip = [] ∧ fp = [] then none
    else
      (parseExpPart r3).map fun e =>
        ((digitsToNat ip : ℚ) + (digitsToNat fp : ℚ) / (10 : ℚ) ^ fp.length) * (10 : ℚ) ^ e
  | r =>
    if ip = [] then none
    else (parseExpPart r).map fun e => (digitsToNat ip : ℚ) * (10 : ℚ) ^ e

/-- JavaScript whitespace, as stripped by `Number(string)`: the common
members of StrWhiteSpace (space, tab, line feed, carriage return, form
feed, vertical tab, no-break space). -/
def isJsSpace (c : Char) : Bool :=
  decide (c = ' ' ∨ c = '\t' ∨ c = '\n' ∨ c = '\r' ∨
    c = Char.ofNat 12 ∨ c = Char.ofNat 11 ∨ c = Char.ofNat 160)

/-- Strip leading and trailing JavaScript whitespace from a character
list. -/
def trimChars (l : List Char) : List Char :=
  ((l.dropWhile isJsSpace).reverse.dropWhile isJsSpace).reverse

/-- `Number(s)` for decimal string inputs; `none` models NaN. -/
def jsNumber (s : String) : Option ℚ :=
  match trimChars s.data with
  | [] => some 0
  | '+' :: rest => parseUnsigned rest
  | '-' :: rest => (parseUnsigned rest).map Neg.neg
  | cs => parseUnsigned cs

/-- The JavaScript expression `x || d` for a number `x`: `d` when `x` is
falsy (NaN or zero), else `x`. -/
def jsOrDefault (x : Option ℚ) (d : ℚ) : ℚ :=
  match x with
  | none => d
  | some q => if q = 0 then d else q

/-- `fontSize` change handler (lines 158–162): `Number(e.target.value) || 5`
becomes both the stored width and the context's line width. -/
def fontSizeChange (s : AppState) (value : String) : AppState :=
  let v := jsOrDefault (jsNumber value) 5
  { s with currentLineWidth := v, ctxLineWidth := v }

/-- `clearButton` click handler (lines 165–172): clear the full logical
area, set the context's fill style to the current background, and fill the
full logical area with it. -/
def clearButtonClick (s : AppState) : AppState :=
  { s with
    ctxFill := s.currentBg
    raster := fillRectFull s.currentBg (clearRectFull s.raster) }

/-- `saveButton` click handler (lines 175–186): encode the raster, write
it to `localStorage` under the fixed key `"canvasContents"`, and trigger a
download of the same data as `my-canvas.png`. -/
def saveButtonClick (s : AppState) : AppState :=
  let dataURL := toDataURL s
  { s with
    store := fun k => if k = "canvasContents" then some dataURL else s.store k
    downloads := s.downloads ++ [("my-canvas.png", dataURL)] }

/-- `retrieveButton` click handler (lines 189–206): read the fixed key; if
absent, alert and return; if present, decode it and (in `img.onload`)
clear the full logical area and draw the decoded image stretched over it. -/
def retrieveButtonClick (s : AppState) : AppState :=
  match s.store "canvasContents" with
  | none => { s with alerts := s.alerts ++ ["No saved drawing found in localStorage."] }
  | some img => { s with raster := drawImageFull img (clearRectFull s.raster) }

/-- The state at the top of `script.js`, before the startup call to
`resizeCanvasAndRestore()` on line 91: fresh canvas (all transparent, no
transform beyond identity, browser-default context style registers),
module variables at their declared initial values, empty `localStorage`
and no effects yet.  A fresh `<canvas>` of the default 300×150 size is
assumed, with context defaults `strokeStyle = fillStyle = #000000`,
`lineWidth = 1`, `lineJoin = miter`, `lineCap = butt`. -/
def initialState : AppState where
  raster := fun _ => none
  logicalW := 300
  logicalH := 150
  backingW := 300
  backingH := 150
  transform := (1, 1)
  ctxStroke := "#000000"
  ctxFill := "#000000"
  ctxLineWidth := 1
  ctxLineJoin := "miter"
  ctxLineCap := "butt"
  currentStroke := "#000000"
  currentBg := "#ffffff"
  currentLineWidth := 5
  isDrawing := false
  lastX := 0
  lastY := 0
  store := fun _ => none
  alerts := []
  downloads := []

/-! ## General lemmas about the raster operations -/

/-- Drawing an image over a cleared copy of itself reproduces the image:
opaque pixels are redrawn, transparent pixels are cleared to transparent,
pixels outside the canvas were never cleared. -/
theorem drawImageFull_clearRectFull_self (img : Image) :
    drawImageFull img (clearRectFull img) = img := by
  funext p
  simp only [drawImageFull, clearRectFull]
  by_cases h : inCanvas p = true
  · simp only [h, if_true]
    cases himg : img p <;> simp [himg]
  · simp only [Bool.not_eq_true] at h
    simp [h]

/-- Drawing an image over a fully wiped canvas restricts it to the canvas
bounds. -/
theorem drawImageFull_wiped (img : Image) :
    drawImageFull img (clearRectFull fun _ => none) =
      fun p => if inCanvas p then img p else none := by
  funext p
  simp only [drawImageFull, clearRectFull]
  by_cases h : inCanvas p = true
  · simp only [h, if_true]
    cases himg : img p <;> simp [himg]
  · simp only [Bool.not_eq_true] at h
    simp [h]

/-- The raster produced by `resizeCanvasAndRestore` is the pre-call raster
restricted to the canvas bounds: the dead `else` branch is never taken and
the snapshot is drawn back over the full area. -/
theorem resize_raster_eq (env : ResizeEnv) (s : AppState) :
    (resizeCanvasAndRestore env s).raster =
      fun p => if inCanvas p then s.raster p else none := by
  simp only [resizeCanvasAndRestore, toDataURL, dataURLTruthy, if_true]
  exact drawImageFull_wiped s.raster

/-- A concrete state with one opaque black pixel drawn at the origin, used
to instantiate universally quantified theorems at a state that has visible
content. -/
def demoDrawn : AppState :=
  { initialState with
    raster := fun p => if p = (0, 0) then some "#000000" else none }

/-! ## Claim theorems -/

/-- **C1.** `save()` followed immediately by `retrieve()` round-trips:
save writes the encoded raster under the fixed key `"canvasContents"`,
retrieve decodes exactly that data and draws it over the full current
logical size, and the visible raster after retrieve equals the visible
raster at save time. -/
theorem save_then_retrieve_roundtrip (s : AppState) :
    (saveButtonClick s).store "canvasContents" = some (toDataURL s) ∧
    (retrieveButtonClick (saveButtonClick s)).raster = s.raster := by
  have hstore : (saveButtonClick s).store "canvasContents" = some s.raster := by
    simp [saveButtonClick, toDataURL]
  refine ⟨hstore, ?_⟩
  unfold retrieveButtonClick
  rw [hstore]
  exact drawImageFull_clearRectFull_self s.raster

/-- **C10.** `save()` is read-only with respect to the drawing state: the
raster, the logical and backing sizes, the transform, every style
register and stored style value, and the stroke session are unchanged;
its only effects are writing the encoded raster under the fixed storage
key and appending the `my-canvas.png` download. -/
theorem save_is_readonly (s : AppState) :
    (saveButtonClick s).raster = s.raster ∧
    (saveButtonClick s).logicalW = s.logicalW ∧
    (saveButtonClick s).logicalH = s.logicalH ∧
    (saveButtonClick s).backingW = s.backingW ∧
    (saveButtonClick s).backingH = s.backingH ∧
    (saveButtonClick s).transform = s.transform ∧
    (saveButtonClick s).ctxStroke = s.ctxStroke ∧
    (saveButtonClick s).ctxFill = s.ctxFill ∧
    (saveButtonClick s).ctxLineWidth = s.ctxLineWidth ∧
    (saveButtonClick s).ctxLineJoin = s.ctxLineJoin ∧
    (saveButtonClick s).ctxLineCap = s.ctxLineCap ∧
    (saveButtonClick s).currentStroke = s.currentStroke ∧
    (saveButtonClick s).currentBg = s.currentBg ∧
    (saveButtonClick s).currentLineWidth = s.currentLineWidth ∧
    (saveButtonClick s).isDrawing = s.isDrawing ∧
    (saveButtonClick s).lastX = s.lastX ∧
    (saveButtonClick s).lastY = s.lastY ∧
    (saveButtonClick s).alerts = s.alerts ∧
    (∀ k, (saveButtonClick s).store k =
      if k = "canvasContents" then some (toDataURL s) else s.store k) ∧
    (saveButtonClick s).downloads = s.downloads ++ [("my-canvas.png", toDataURL s)] :=
  ⟨rfl, rfl, rfl, rfl, rfl, rfl, rfl, rfl, rfl, rfl, rfl, rfl, rfl, rfl, rfl,
   rfl, rfl, rfl, fun _ => rfl, rfl⟩

/-- **C4.** When the fixed storage key holds no snapshot, `retrieve()`
emits the user notice and performs no other change: the resulting state is
exactly the prior state with the notice appended to the alert log (so the
raster, style state and stroke session are untouched). -/
theorem retrieve_missing_snapshot_alerts (s : AppState)
    (h : s.store "canvasContents" = none) :
    retrieveButtonClick s =
      { s with alerts := s.alerts ++ ["No saved drawing found in localStorage."] } := by
  unfold retrieveButtonClick
  rw [h]

theorem retrieve_missing_snapshot_alerts_witness :
    retrieveButtonClick initialState =
      { initialState with alerts := ["No saved drawing found in localStorage."] } :=
  retrieve_missing_snapshot_alerts initialState rfl

/-- **C3.** `clear()` results in a raster uniformly filled with the
current background color over the entire current logical bounds,
regardless of prior content: every pixel inside the bounds is the opaque
background color, never transparent. -/
theorem clear_fills_with_current_background (s : AppState) (p : ℚ × ℚ)
    (hp : inCanvas p = true) :
    (clearButtonClick s).raster p = some s.currentBg := by
  simp [clearButtonClick, fillRectFull, clearRectFull, hp]

theorem clear_fills_with_current_background_witness :
    (clearButtonClick demoDrawn).raster (0, 0) = some "#ffffff" :=
  clear_fills_with_current_background demoDrawn (0, 0) rfl

/-- **C2.** Changing the background color re-composites rather than plain
fills: the new raster is the snapshot of the old raster drawn on top of a
fresh full-area fill with the new background color, so every previously
opaque (drawn) pixel keeps its exact color, and previously transparent
pixels inside the bounds show the new background. -/
theorem background_change_recomposites (s : AppState) (v : String) :
    (canvasColorChange s v).currentBg = v ∧
    (canvasColorChange s v).raster =
      drawImageFull (toDataURL s) (fillRectFull v (clearRectFull s.raster)) ∧
    (∀ p c, s.raster p = some c → (canvasColorChange s v).raster p = some c) ∧
    (∀ p, inCanvas p = true → s.raster p = none →
      (canvasColorChange s v).raster p = some v) := by
  refine ⟨rfl, rfl, ?_, ?_⟩
  · intro p c hc
    by_cases hin : inCanvas p = true <;>
      simp [canvasColorChange, drawImageFull, fillRectFull, clearRectFull,
        toDataURL, hc, hin]
  · intro p hp hnone
    simp [canvasColorChange, drawImageFull, fillRectFull, clearRectFull,
      toDataURL, hp, hnone]

theorem background_change_recomposites_witness :
    (canvasColorChange demoDrawn "#ff0000").raster (0, 0) = some "#000000" ∧
    (canvasColorChange demoDrawn "#ff0000").raster (1/2, 1/2) = some "#ff0000" :=
  ⟨(background_change_recomposites demoDrawn "#ff0000").2.2.1 (0, 0) "#000000" rfl,
   (background_change_recomposites demoDrawn "#ff0000").2.2.2 (1/2, 1/2)
     (by norm_num [inCanvas])
     (by norm_num [demoDrawn, initialState, Prod.ext_iff])⟩

/-- **C8.** The raster is mutated only on pointer-move while the session
is active: a move while idle is a complete no-op on the whole state,
pointer-down and the up/cancel/out handler never touch the raster, and a
pointer-down immediately followed by pointer-up leaves the raster
unchanged and the session idle (no stray dot). -/
theorem raster_mutated_only_while_drawing :
    (∀ (s : AppState) (x y : ℚ), s.isDrawing = false → pointermove s x y = s) ∧
    (∀ (s : AppState) (x y : ℚ), (pointerdown s x y).raster = s.raster) ∧
    (∀ (s : AppState), (stopDrawing s).raster = s.raster) ∧
    (∀ (s : AppState) (x y : ℚ),
      (stopDrawing (pointerdown s x y)).raster = s.raster ∧
      (stopDrawing (pointerdown s x y)).isDrawing = false) := by
  refine ⟨?_, fun s x y => rfl, fun s => rfl, fun s x y => ⟨rfl, rfl⟩⟩
  intro s x y h
  simp [pointermove, h]

theorem raster_mutated_only_while_drawing_witness :
    pointermove initialState 3 4 = initialState :=
  raster_mutated_only_while_drawing.1 initialState 3 4 rfl

/-- **C6.** `resizeCanvasAndRestore` computes the display width as
`min(800, max(240, containerWidth - padding))`, the display height by the
800:350 base aspect ratio rounded, sets the logical size to that display
size, and sets the backing size to the display size times the device
pixel ratio, rounded. -/
theorem resize_size_computation (env : ResizeEnv) (s : AppState)
    (hd : env.devicePixelRatio ≠ 0) :
    (resizeCanvasAndRestore env s).logicalW =
      min 800 (max 240 (env.containerClientWidth - env.paddingX)) ∧
    (resizeCanvasAndRestore env s).logicalH =
      ((jsRound ((resizeCanvasAndRestore env s).logicalW * 350 / 800) : ℤ) : ℚ) ∧
    (resizeCanvasAndRestore env s).backingW =
      jsRound ((resizeCanvasAndRestore env s).logicalW * env.devicePixelRatio) ∧
    (resizeCanvasAndRestore env s).backingH =
      jsRound ((resizeCanvasAndRestore env s).logicalH * env.devicePixelRatio) := by
  simp [resizeCanvasAndRestore, hd]

theorem resize_size_computation_witness :
    (resizeCanvasAndRestore ⟨900, 32, 2⟩ initialState).logicalW = 800 ∧
    (resizeCanvasAndRestore ⟨900, 32, 2⟩ initialState).logicalH = 350 ∧
    (resizeCanvasAndRestore ⟨900, 32, 2⟩ initialState).backingW = 1600 ∧
    (resizeCanvasAndRestore ⟨900, 32, 2⟩ initialState).backingH = 700 := by
  obtain ⟨h1, h2, h3, h4⟩ :=
    resize_size_computation ⟨900, 32, 2⟩ initialState (by norm_num)
  have e1 : (resizeCanvasAndRestore ⟨900, 32, 2⟩ initialState).logicalW = 800 := by
    rw [h1]; norm_num
  have e2 : (resizeCanvasAndRestore ⟨900, 32, 2⟩ initialState).logicalH = 350 := by
    rw [h2, e1]; norm_num [jsRound]
  refine ⟨e1, e2, ?_, ?_⟩
  · rw [h3, e1]; norm_num [jsRound]
  · rw [h4, e2]; norm_num [jsRound]

/-- **C7.** `resizeCanvasAndRestore` is idempotent under an unchanged
container size and device pixel ratio: the state after two consecutive
calls — visible raster, logical and backing sizes, transform, and all
style and session state — equals the state after one call (in the
resampling-free raster model). -/
theorem resize_idempotent (env : ResizeEnv) (s : AppState) :
    resizeCanvasAndRestore env (resizeCanvasAndRestore env s) =
      resizeCanvasAndRestore env s := by
  have hr : ∀ t : AppState,
      (resizeCanvasAndRestore env t).raster =
        fun p => if inCanvas p then t.raster p else none := resize_raster_eq env
  apply AppState.ext <;> try rfl
  rw [hr (resizeCanvasAndRestore env s), hr s]
  funext p
  by_cases h : inCanvas p = true <;> simp [h]

/-- **C5.** [code-bug evidence] On the initial invocation of
`resizeCanvasAndRestore` the raster is NOT filled with the current
background color: `canvas.toDataURL()` returns a truthy (non-empty)
string even for a blank canvas, so the snapshot branch is taken, the
blank transparent snapshot is drawn, and the pixel at the origin stays
transparent (`none`) although the current background is `"#ffffff"`. -/
theorem first_resize_does_not_fill_background :
    dataURLTruthy (toDataURL initialState) = true ∧
    (resizeCanvasAndRestore ⟨900, 32, 1⟩ initialState).currentBg = "#ffffff" ∧
    (resizeCanvasAndRestore ⟨900, 32, 1⟩ initialState).raster (0, 0) = none :=
  ⟨rfl, rfl, rfl⟩

/-- **C9.** [counterexample] The claim fails at the input string `"0"`:
`Number("0")` is the valid numeric value `0`, yet the handler sets the
stored width to the default `5`, not to `0`, because `Number(v) || 5`
treats the number `0` as falsy. -/
theorem lineWidth_valid_zero_falls_back :
    jsNumber "0" = some 0 ∧
    (fontSizeChange initialState "0").currentLineWidth = 5 ∧
    (5 : ℚ) ≠ 0 := by
  have h : jsNumber "0" = some ((digitsToNat ['0'] : ℚ) * (10 : ℚ) ^ (0 : ℤ)) := rfl
  have h0 : jsNumber "0" = some 0 := by
    rw [h, show digitsToNat ['0'] = 0 from rfl]; norm_num
  refine ⟨h0, ?_, by norm_num⟩
  simp [fontSizeChange, jsOrDefault, h0]

/-- **C9 (amended).** The line-width setter coerces the input to a
number; when the coercion yields a valid nonzero number, both the stored
width and the context's line width become that number; when the input is
not a valid numeric value — or coerces to the falsy number `0` — both
fall back to the default `5`. -/
theorem lineWidth_coercion_with_falsy_fallback (s : AppState) (w : String) :
    (∀ n, jsNumber w = some n → n ≠ 0 →
      (fontSizeChange s w).currentLineWidth = n ∧
      (fontSizeChange s w).ctxLineWidth = n) ∧
    (jsNumber w = none ∨ jsNumber w = some 0 →
      (fontSizeChange s w).currentLineWidth = 5 ∧
      (fontSizeChange s w).ctxLineWidth = 5) := by
  constructor
  · intro n hn hn0
    simp [fontSizeChange, jsOrDefault, hn, hn0]
  · rintro (hn | hn) <;> simp [fontSizeChange, jsOrDefault, hn]

theorem lineWidth_coercion_with_falsy_fallback_witness :
    (fontSizeChange initialState "abc").currentLineWidth = 5 ∧
    (fontSizeChange initialState "7").currentLineWidth = 7 := by
  have h7 : jsNumber "7" = some 7 := by
    rw [show jsNumber "7" = some ((digitsToNat ['7'] : ℚ) * (10 : ℚ) ^ (0 : ℤ)) from rfl,
      show digitsToNat ['7'] = 7 from rfl]
    norm_num
  exact ⟨((lineWidth_coercion_with_falsy_fallback initialState "abc").2 (Or.inl rfl)).1,
    ((lineWidth_coercion_with_falsy_fallback initialState "7").1 7 h7 (by norm_num)).1⟩
